import Mathlib

/-!
Shallow embedding of the waste-classification core (ML integration module):
image quality analysis, confidence adjustment, the mock/simulated classifier,
the remote API classifier, the classification orchestrator and the model
lifecycle loader. Machine numbers are modelled as rationals (JS numbers on the
values involved behave exactly), `Math.round` as Mathlib's `round`
(both are floor of x + 1/2), and thrown exceptions as `Except` values.
-/

namespace WasteML

/-- The three waste categories of `ClassificationResult["type"]`. -/
inductive WasteType
  | biodegradable
  | recyclable
  | hazardous
  deriving DecidableEq, Repr

/-- The `quality` union type `"good" | "fair" | "poor"`. -/
inductive Quality
  | good
  | fair
  | poor
  deriving DecidableEq, Repr

/-- The `lightingConditions` union type `"good" | "low" | "overexposed"`. -/
inductive Lighting
  | good
  | low
  | overexposed
  deriving DecidableEq, Repr

/-- One RGBA pixel of the canvas image data (the analyzer reads r, g, b). -/
structure Pixel where
  r : ℕ
  g : ℕ
  b : ℕ
  a : ℕ
  deriving DecidableEq, Repr

/-- The `imageAnalysis` record produced by `analyzeImageQuality`. -/
structure ImageAnalysis where
  quality : Quality
  clarity : ℚ
  lightingConditions : Lighting
  objectDetectionCount : ℕ
  deriving DecidableEq, Repr

/-- Mean brightness: the analyzer sums `(data[i]+data[i+1]+data[i+2])/3` over
all pixels and divides by the pixel count (`data.length / 4`). -/
def brightnessOf (pixels : List Pixel) : ℚ :=
  (pixels.map (fun p => ((p.r : ℚ) + (p.g : ℚ) + (p.b : ℚ)) / 3)).sum
    / (pixels.length : ℚ)

/-- The `quality` if-chain of `analyzeImageQuality`:
`brightness > 100 && brightness < 200` is good, else `brightness > 50` is
fair, else poor. -/
def qualityOfBrightness (brightness : ℚ) : Quality :=
  if 100 < brightness ∧ brightness < 200 then .good
  else if 50 < brightness then .fair
  else .poor

/-- The `lightingConditions` if-chain of `analyzeImageQuality`:
`brightness > 180` is overexposed, else `brightness < 80` is low, else good. -/
def lightingOfBrightness (brightness : ℚ) : Lighting :=
  if 180 < brightness then .overexposed
  else if brightness < 80 then .low
  else .good

/-- `analyzeImageQuality`: computes the mean brightness and derives quality,
clarity `min(100, max(0, (brightness - 50) / 1.5))`, lighting, and the
constant object count 1. -/
def analyzeImageQuality (pixels : List Pixel) : ImageAnalysis :=
  let brightness := brightnessOf pixels
  { quality := qualityOfBrightness brightness
    clarity := min 100 (max 0 ((brightness - 50) / (1.5 : ℚ)))
    lightingConditions := lightingOfBrightness brightness
    objectDetectionCount := 1 }

/-- `getRecommendations`: fixed per-category disposal advice. -/
def getRecommendations (t : WasteType) : List String :=
  match t with
  | .biodegradable =>
      ["Compost in your garden or community compost bin",
       "Remove any non-organic materials before composting",
       "Consider setting up a home composting system"]
  | .recyclable =>
      ["Clean the item before recycling",
       "Check local recycling guidelines for this material",
       "Take to your nearest recycling center",
       "Consider reusing before recycling"]
  | .hazardous =>
      ["Do not put in regular trash",
       "Take to specialized hazardous waste facility",
       "Check for manufacturer take-back programs",
       "Store safely until proper disposal"]

/-- `getSubCategory`: picks `list[Math.floor(r * list.length)]` from the fixed
per-category candidate list; `r` models the `Math.random()` draw. The default
value stands for the JS out-of-range access, unreachable for `r ∈ [0,1)`. -/
def getSubCategory (t : WasteType) (r : ℚ) : String :=
  let candidates : List String :=
    match t with
    | .biodegradable =>
        ["Food waste", "Garden waste", "Paper products", "Natural materials"]
    | .recyclable =>
        ["Plastic container", "Glass bottle", "Metal can", "Paper product"]
    | .hazardous =>
        ["Electronic waste", "Battery", "Chemical container",
         "Paint container"]
  candidates.getD (⌊r * (candidates.length : ℚ)⌋).toNat "Unknown"

/-- `getMaterial`: same shape as `getSubCategory` over the material lists. -/
def getMaterial (t : WasteType) (r : ℚ) : String :=
  let candidates : List String :=
    match t with
    | .biodegradable =>
        ["Organic matter", "Plant-based", "Natural fiber",
         "Biodegradable plastic"]
    | .recyclable =>
        ["PET plastic", "Aluminum", "Glass", "Cardboard", "Steel"]
    | .hazardous =>
        ["Lithium battery", "Lead", "Chemical compound",
         "Electronic components"]
  candidates.getD (⌊r * (candidates.length : ℚ)⌋).toNat "Unknown"

/-- The `details` record of a classification result. -/
structure Details where
  subCategory : Option String := none
  material : Option String := none
  recommendations : List String := []
  deriving DecidableEq, Repr

/-- The value built by `processEnhancedPredictions` (type, rounded adjusted
confidence, details). -/
structure ProcessedPrediction where
  type : WasteType
  confidence : ℤ
  details : Details
  deriving DecidableEq, Repr

/-- The confidence adjustment of `processEnhancedPredictions` lines 612-619,
on the raw 0-100 confidence `c = maxConfidence * 100`:
`if quality === "poor"` multiply by 0.8, `if lightingConditions === "low"`
multiply by 0.9, then `Math.round(Math.min(99, adjustedConfidence))`. -/
def adjustConfidence (c : ℚ) (q : Quality) (l : Lighting) : ℤ :=
  let a1 := if q = Quality.poor then c * (0.8 : ℚ) else c
  let a2 := if l = Lighting.low then a1 * (0.9 : ℚ) else a1
  round (min (99 : ℚ) a2)

/-- `processEnhancedPredictions` on the three raw scores
`[biodegradable, recyclable, hazardous]` of the prediction tensor:
takes the maximum score, picks the type by first match against the maximum,
adjusts `maxConfidence * 100` by image quality (see `adjustConfidence`),
and fills the details from the per-category lookups. `rSub`/`rMat` model the
`Math.random()` draws inside `getSubCategory`/`getMaterial`. -/
def processEnhancedPredictions (bio rec haz : ℚ) (ia : ImageAnalysis)
    (rSub rMat : ℚ) : ProcessedPrediction :=
  let maxConfidence := max bio (max rec haz)
  let ty : WasteType :=
    if maxConfidence = bio then .biodegradable
    else if maxConfidence = rec then .recyclable
    else .hazardous
  { type := ty
    confidence :=
      adjustConfidence (maxConfidence * 100) ia.quality ia.lightingConditions
    details :=
      { subCategory := some (getSubCategory ty rSub)
        material := some (getMaterial ty rMat)
        recommendations := getRecommendations ty } }

/-- A `ClassificationResult` as far as the orchestrator, mock and API paths
construct it: category, confidence (a JS number), processing time, details. -/
structure ClassificationResult where
  type : WasteType
  confidence : ℚ
  processingTime : ℚ := 0
  details : Details := {}
  deriving DecidableEq, Repr

/-- The `types` array of `mockClassification`. -/
def mockTypes : List WasteType :=
  [.biodegradable, .recyclable, .hazardous]

/-- The simulated classifier's observable behaviour: the delay it waits and
the result it returns. -/
structure MockOutcome where
  delayMs : ℚ
  result : ClassificationResult
  deriving DecidableEq, Repr

/-- `mockClassification` with the five `Math.random()` draws made explicit:
waits `350 + rDelay * 400` ms, picks `types[Math.floor(rType * 3)]`,
confidence `85 + Math.floor(rConf * 15)`, and fills details from the
per-category lookups. The `getD` default stands for the JS out-of-range
access, unreachable for `rType ∈ [0,1)`. -/
def mockClassification (rDelay rType rConf rSub rMat : ℚ) : MockOutcome :=
  let ty : WasteType :=
    mockTypes.getD (⌊rType * (mockTypes.length : ℚ)⌋).toNat .hazardous
  let confidence : ℤ := 85 + ⌊rConf * 15⌋
  { delayMs := 350 + rDelay * 400
    result :=
      { type := ty
        confidence := (confidence : ℚ)
        processingTime := 600
        details :=
          { subCategory := some (getSubCategory ty rSub)
            material := some (getMaterial ty rMat)
            recommendations := getRecommendations ty } } }

/-- The orchestrator input: `File | HTMLImageElement`. -/
inductive ClassInput
  | image
  | file
  deriving DecidableEq, Repr

/-- Everything `classifyWaste` observes in one call: backend availability
(`tensorflowModel.isReady`, `mlConfig.apiEndpoint`), the input's shape, the
outcome each fallible backend would produce if invoked (`Except.error`
modelling a thrown exception), and the random draws of the single
`mockClassification` call the run can make. -/
structure OrchEnv where
  tfReady : Bool
  apiEndpoint : Option String
  input : ClassInput
  tfOutcome : Except String ClassificationResult
  apiOutcome : Except String ClassificationResult
  rDelay : ℚ
  rType : ℚ
  rConf : ℚ
  rSub : ℚ
  rMat : ℚ

/-- The result of the mock call `classifyWaste` would make in `env`. -/
def mockResultOf (env : OrchEnv) : ClassificationResult :=
  (mockClassification env.rDelay env.rType env.rConf env.rSub env.rMat).result

/-- The body of `classifyWaste`'s `try` block: TensorFlow model if ready and
the input is an image, else the API if configured and the input is a file,
else the mock classifier (which never throws). -/
def attemptOf (env : OrchEnv) : Except String ClassificationResult :=
  if env.tfReady = true ∧ env.input = ClassInput.image then env.tfOutcome
  else if env.apiEndpoint.isSome = true ∧ env.input = ClassInput.file then
    env.apiOutcome
  else Except.ok (mockResultOf env)

/-- `classifyWaste`: the `try`/`catch` around `attemptOf` — any error falls
back to the mock classification. -/
def classifyWaste (env : OrchEnv) : Except String ClassificationResult :=
  match attemptOf env with
  | .ok r => .ok r
  | .error _ => .ok (mockResultOf env)

/-- The shape of a successful remote API JSON payload as the code reads it:
`result.type`, `result.confidence`, `result.details` (spread into the
returned details, i.e. possibly carrying its own recommendation text). -/
structure RemoteResponse where
  type : WasteType
  confidence : ℚ
  details : Details := {}
  deriving DecidableEq, Repr

/-- A fetch `Response` as `classifyImageViaAPI` inspects it: `ok`,
`statusText`, and the outcome of `response.json()` parsing. -/
structure HttpResponse where
  ok : Bool
  statusText : String
  body : Except String RemoteResponse
  deriving Repr

/-- The distinct failure kinds `classifyImageViaAPI` can throw. -/
inductive ApiError
  | notConfigured
  | network (msg : String)
  | requestFailed (statusText : String)
  | parse (msg : String)
  deriving DecidableEq, Repr

/-- The `Error` message text carried by each thrown failure. -/
def ApiError.message : ApiError → String
  | .notConfigured => "ML API endpoint not configured"
  | .network m => m
  | .requestFailed st => "API request failed: " ++ st
  | .parse m => m

/-- `classifyImageViaAPI`: throws `notConfigured` before any fetch when no
endpoint is configured; otherwise performs the fetch (whose outcome,
including network failure, is `fetchOutcome`), throws `requestFailed` with
the status text on a non-ok response, throws `parse` if `response.json()`
fails, and otherwise returns the parsed payload with the recommendations
recomputed locally from the returned category. The API key only shapes the
Authorization header. -/
def classifyImageViaAPI (apiEndpoint apiKey : Option String)
    (fetchOutcome : Except String HttpResponse) (processingTime : ℚ) :
    Except ApiError ClassificationResult :=
  match apiEndpoint with
  | none => .error .notConfigured
  | some _ =>
    match fetchOutcome with
    | .error e => .error (.network e)
    | .ok resp =>
      if resp.ok = false then .error (.requestFailed resp.statusText)
      else
        match resp.body with
        | .error e => .error (.parse e)
        | .ok r =>
          .ok { type := r.type
                confidence := r.confidence
                processingTime := processingTime
                details :=
                  { r.details with
                      recommendations := getRecommendations r.type } }

/-- `MLModel["loadingState"]`. -/
inductive LoadingState
  | idle
  | loading
  | loaded
  | error
  deriving DecidableEq, Repr

/-- `MLModel.trainingData`. -/
structure TrainingData where
  samples : ℕ
  accuracy : ℚ
  lastUpdated : String
  deriving DecidableEq, Repr

/-- The `MLModel` info record. -/
structure MLModel where
  name : String
  version : String
  accuracy : ℚ
  supportedFormats : List String
  loadingState : LoadingState
  modelSize : Option ℚ := none
  trainingData : Option TrainingData := none
  offlineCapable : Bool
  deriving DecidableEq, Repr

/-- The fixed offline-cache key used by both `loadOfflineModel` and
`cacheModelOffline`. -/
def modelKey : String := "ecosort-waste-classifier-v2"

/-- The info record `loadOfflineModel` returns on a cache hit. -/
def offlineModelInfo : MLModel :=
  { name := "EcoSort Offline Classifier"
    version := "2.0.0"
    accuracy := 92.1
    supportedFormats := ["image/jpeg", "image/png", "image/webp"]
    loadingState := .loaded
    offlineCapable := true }

/-- The info record `loadModel` sets after loading from the configured URL. -/
def urlModelInfo : MLModel :=
  { name := "EcoSort Waste Classifier"
    version := "2.1.0"
    accuracy := 94.2
    supportedFormats := ["image/jpeg", "image/png", "image/webp"]
    loadingState := .loaded
    modelSize := some 12.5
    trainingData :=
      some { samples := 100000, accuracy := 94.2, lastUpdated := "2024-01-15" }
    offlineCapable := true }

/-- The info record `loadDemoModel` returns with the built-in demo model. -/
def demoModelInfo : MLModel :=
  { name := "EcoSort Demo Classifier"
    version := "1.0.0"
    accuracy := 88.5
    supportedFormats := ["image/jpeg", "image/png", "image/webp"]
    loadingState := .loaded
    offlineCapable := true }

/-- Everything one `loadModel` run observes: the outcome of the IndexedDB
cache read under `modelKey`, the configured remote model URL, the outcome of
fetching it, and the outcome of the IndexedDB cache write. -/
structure LoadEnv where
  cacheLoad : Except String Unit
  tensorflowModelUrl : Option String
  urlLoad : Except String Unit
  cacheSave : Except String Unit
  deriving Repr

/-- `loadOfflineModel`: tries `tf.loadLayersModel("indexeddb://" + key)` and
returns `null` on any failure (its `catch` swallows the error). -/
def loadOfflineModel (cacheLoad : Except String Unit) : Option MLModel :=
  match cacheLoad with
  | .ok _ => some offlineModelInfo
  | .error _ => none

/-- `cacheModelOffline`: saves under `modelKey`; a failure is caught inside
and only logged (`console.warn`), so the function never throws — its result
is just the warning text, if any. -/
def cacheModelOffline (cacheSave : Except String Unit) : Option String :=
  match cacheSave with
  | .ok _ => none
  | .error e => some ("Failed to cache model offline: " ++ e)

/-- `loadDemoModel`: constructs the built-in demo model (always succeeds). -/
def loadDemoModel : MLModel := demoModelInfo

/-- The observable state `loadModel` leaves behind: loading state, model
info, offline-mode flag, the recorded error message, and the swallowed
cache-write warning (if that side effect ran and failed). -/
structure LoadOutcome where
  loadingState : LoadingState
  modelInfo : Option MLModel
  isOfflineMode : Bool
  errorMsg : Option String
  warnLog : Option String := none
  deriving DecidableEq, Repr

/-- `loadModel` (the `useEffect` loader): offline cache first — a hit is used
and the function returns before touching the remote URL; else the configured
URL — success stores `urlModelInfo`, marks loaded, then runs the
`cacheModelOffline` side effect, while a fetch failure is caught and moves
the state to error with the error's message; else the demo model. -/
def loadModel (env : LoadEnv) : LoadOutcome :=
  match loadOfflineModel env.cacheLoad with
  | some info =>
      { loadingState := .loaded
        modelInfo := some info
        isOfflineMode := true
        errorMsg := none }
  | none =>
      match env.tensorflowModelUrl with
      | some _ =>
          match env.urlLoad with
          | .ok _ =>
              { loadingState := .loaded
                modelInfo := some urlModelInfo
                isOfflineMode := false
                errorMsg := none
                warnLog := cacheModelOffline env.cacheSave }
          | .error e =>
              { loadingState := .error
                modelInfo := none
                isOfflineMode := false
                errorMsg := some e }
      | none =>
          { loadingState := .loaded
            modelInfo := some loadDemoModel
            isOfflineMode := false
            errorMsg := none }

/-- Fixture: TensorFlow model ready, image input, inference throws. -/
def tfFailureEnv : OrchEnv :=
  { tfReady := true
    apiEndpoint := none
    input := .image
    tfOutcome := .error "Classification failed: Unknown error"
    apiOutcome := .error "unused"
    rDelay := 0, rType := 0, rConf := 0, rSub := 0, rMat := 0 }

/-- Fixture: no model loaded and no endpoint configured, mid-range draws. -/
def mockOnlyEnv : OrchEnv :=
  { tfReady := false
    apiEndpoint := none
    input := .file
    tfOutcome := .error "Model not loaded"
    apiOutcome := .error "unused"
    rDelay := 1/2, rType := 1/2, rConf := 1/2, rSub := 1/2, rMat := 1/2 }

/-- Fixture: a failed HTTP response. -/
def http500 : HttpResponse :=
  { ok := false
    statusText := "Internal Server Error"
    body := .error "not parsed" }

/-- Fixture: a remote payload reporting full certainty and its own
recommendation text. -/
def remotePayload : RemoteResponse :=
  { type := .recyclable
    confidence := 100
    details := { recommendations := ["Trust the remote text verbatim"] } }

/-- Fixture: a successful HTTP response around `remotePayload`. -/
def httpOk : HttpResponse :=
  { ok := true
    statusText := "OK"
    body := .ok remotePayload }

/-- Fixture: the offline cache holds a model; the remote URL is configured
but unreachable and the cache write would fail. -/
def cachedLoadEnv : LoadEnv :=
  { cacheLoad := .ok ()
    tensorflowModelUrl := some "https://models.example.test/model.json"
    urlLoad := .error "network unreachable"
    cacheSave := .error "quota exceeded" }

/-- Fixture: cache miss, configured URL loads, but the cache write fails. -/
def remoteLoadEnv : LoadEnv :=
  { cacheLoad := .error "no model in cache"
    tensorflowModelUrl := some "https://models.example.test/model.json"
    urlLoad := .ok ()
    cacheSave := .error "quota exceeded" }

/-- Fixture: cache miss and no URL configured. -/
def demoLoadEnv : LoadEnv :=
  { cacheLoad := .error "no model in cache"
    tensorflowModelUrl := none
    urlLoad := .error "unused"
    cacheSave := .ok () }

end WasteML

namespace WasteML

/-- Rounding is monotone (both sides as floor of x + 1/2). -/
theorem roundMonoQ {x y : ℚ} (h : x ≤ y) : round x ≤ round y := by
  rw [round_eq, round_eq]
  exact Int.floor_le_floor (by linarith)

/-- `Math.round(Math.min(99, x))` lies in [0, 99] for nonnegative `x`. -/
theorem roundMinNinetyNineBounds {x : ℚ} (hx : 0 ≤ x) :
    0 ≤ round (min (99 : ℚ) x) ∧ round (min (99 : ℚ) x) ≤ 99 := by
  have hmin0 : (0 : ℚ) ≤ min 99 x := le_min (by norm_num) hx
  have hmin99 : min (99 : ℚ) x ≤ 99 := min_le_left _ _
  constructor
  · rw [round_eq]
    exact Int.le_floor.2 (by push_cast; linarith)
  · rw [round_eq]
    have hlt : (⌊min (99 : ℚ) x + 1 / 2⌋ : ℤ) < 100 :=
      Int.floor_lt.2 (by push_cast; linarith)
    omega

/-- C1 counterexample: at mean luminance 200 the code returns quality fair
(the else-if chain sends every brightness above 50 that is not strictly
inside (100,200) to fair), whereas the claim's buckets put 200 in Poor. -/
theorem qualityOfBrightness_at_200_not_poor :
    qualityOfBrightness 200 = Quality.fair ∧
      qualityOfBrightness 200 ≠ Quality.poor := by
  constructor <;> decide

/-- C1 amended: quality and lightingCondition are pure functions of the mean
luminance L alone (the analyzer's fields factor through `brightnessOf`), and
the buckets are exactly: quality Good on (100,200), Fair on (50,100] ∪
[200,∞), Poor on (-∞,50]; lighting Overexposed above 180, Low below 80, Good
on [80,180]. These characterisations partition the luminance range with no
gaps or overlaps. -/
theorem analyzeImageQuality_buckets :
    (∀ L : ℚ,
      (qualityOfBrightness L = Quality.good ↔ 100 < L ∧ L < 200) ∧
      (qualityOfBrightness L = Quality.fair ↔ 50 < L ∧ (L ≤ 100 ∨ 200 ≤ L)) ∧
      (qualityOfBrightness L = Quality.poor ↔ L ≤ 50) ∧
      (lightingOfBrightness L = Lighting.overexposed ↔ 180 < L) ∧
      (lightingOfBrightness L = Lighting.low ↔ L < 80) ∧
      (lightingOfBrightness L = Lighting.good ↔ 80 ≤ L ∧ L ≤ 180)) ∧
    (∀ pixels : List Pixel,
      (analyzeImageQuality pixels).quality
          = qualityOfBrightness (brightnessOf pixels) ∧
      (analyzeImageQuality pixels).lightingConditions
          = lightingOfBrightness (brightnessOf pixels)) := by
  constructor
  · intro L
    refine ⟨?_, ?_, ?_, ?_, ?_, ?_⟩
    · simp only [qualityOfBrightness]
      split_ifs with h1 h2
      · exact iff_of_true rfl h1
      · exact iff_of_false (by decide) h1
      · exact iff_of_false (by decide) h1
    · simp only [qualityOfBrightness]
      split_ifs with h1 h2
      · exact iff_of_false (by decide)
          (by rintro ⟨ha, hb | hb⟩ <;> linarith [h1.1, h1.2])
      · refine iff_of_true rfl ⟨h2, ?_⟩
        rcases le_or_lt L 100 with h3 | h3
        · exact Or.inl h3
        · exact Or.inr (le_of_not_lt fun h4 => h1 ⟨h3, h4⟩)
      · exact iff_of_false (by decide) (fun hh => h2 hh.1)
    · simp only [qualityOfBrightness]
      split_ifs with h1 h2
      · exact iff_of_false (by decide) (by intro h; linarith [h1.1])
      · exact iff_of_false (by decide) (by intro h; linarith)
      · exact iff_of_true rfl (le_of_not_lt h2)
    · simp only [lightingOfBrightness]
      split_ifs with h1 h2
      · exact iff_of_true rfl h1
      · exact iff_of_false (by decide) h1
      · exact iff_of_false (by decide) h1
    · simp only [lightingOfBrightness]
      split_ifs with h1 h2
      · exact iff_of_false (by decide) (by intro h; linarith)
      · exact iff_of_true rfl h2
      · exact iff_of_false (by decide) h2
    · simp only [lightingOfBrightness]
      split_ifs with h1 h2
      · exact iff_of_false (by decide) (by intro h; linarith [h.2])
      · exact iff_of_false (by decide) (by intro h; linarith [h.1])
      · exact iff_of_true rfl ⟨le_of_not_lt h2, le_of_not_lt h1⟩
  · intro pixels
    constructor <;> rfl

/-- C2: for raw confidence c ∈ [0,100] the adjustment returns
`round(min(99, c * factor))` where the 0.8 (Poor) and 0.9 (Low) multipliers
compose multiplicatively, the result is an integer in [0,99] (never 100), and
`processEnhancedPredictions` computes exactly this adjustment on
`maxConfidence * 100`. -/
theorem adjustConfidence_rounds_and_caps (c : ℚ) (q : Quality) (l : Lighting)
    (h0 : 0 ≤ c) (h1 : c ≤ 100) :
    adjustConfidence c q l
        = round (min (99 : ℚ)
            (c * ((if q = Quality.poor then (0.8 : ℚ) else 1)
                * (if l = Lighting.low then (0.9 : ℚ) else 1)))) ∧
    0 ≤ adjustConfidence c q l ∧ adjustConfidence c q l ≤ 99 ∧
    (∀ (bio rec haz : ℚ) (ia : ImageAnalysis) (rSub rMat : ℚ),
      (processEnhancedPredictions bio rec haz ia rSub rMat).confidence
        = adjustConfidence (max bio (max rec haz) * 100)
            ia.quality ia.lightingConditions) := by
  have hbounds :
      0 ≤ adjustConfidence c q l ∧ adjustConfidence c q l ≤ 99 := by
    cases q <;> cases l <;>
      · simp only [adjustConfidence]
        exact roundMinNinetyNineBounds (by simp <;> nlinarith)
  refine ⟨?_, hbounds.1, hbounds.2, fun bio rec haz ia rSub rMat => rfl⟩
  cases q <;> cases l <;>
    simp [adjustConfidence, mul_assoc, mul_one]

/-- C2 witness: at c = 90, quality Poor, lighting Low, the hypotheses hold and
the adjusted confidence is within [0,99]. -/
theorem adjustConfidence_rounds_and_caps_witness :
    (0 : ℚ) ≤ 90 ∧ (90 : ℚ) ≤ 100 ∧
      0 ≤ adjustConfidence 90 Quality.poor Lighting.low ∧
      adjustConfidence 90 Quality.poor Lighting.low ≤ 99 :=
  ⟨by norm_num, by norm_num,
    (adjustConfidence_rounds_and_caps 90 Quality.poor Lighting.low
      (by norm_num) (by norm_num)).2.1,
    (adjustConfidence_rounds_and_caps 90 Quality.poor Lighting.low
      (by norm_num) (by norm_num)).2.2.1⟩

/-- C3: with the lighting condition fixed, the adjusted confidence is
non-increasing as quality degrades Good → Fair → Poor. -/
theorem adjustConfidence_monotone_in_quality (c : ℚ) (l : Lighting)
    (h0 : 0 ≤ c) (h1 : c ≤ 100) :
    adjustConfidence c Quality.poor l ≤ adjustConfidence c Quality.fair l ∧
    adjustConfidence c Quality.fair l ≤ adjustConfidence c Quality.good l := by
  constructor
  · cases l <;>
      · simp only [adjustConfidence]
        simp only [reduceCtorEq, if_false, if_true, reduceIte]
        exact roundMonoQ (min_le_min le_rfl (by nlinarith))
  · cases l <;> simp [adjustConfidence]

/-- C3 witness: at c = 90 with lighting Low the monotonicity chain holds. -/
theorem adjustConfidence_monotone_in_quality_witness :
    (0 : ℚ) ≤ 90 ∧ (90 : ℚ) ≤ 100 ∧
      adjustConfidence 90 Quality.poor Lighting.low
          ≤ adjustConfidence 90 Quality.fair Lighting.low ∧
      adjustConfidence 90 Quality.fair Lighting.low
          ≤ adjustConfidence 90 Quality.good Lighting.low :=
  ⟨by norm_num, by norm_num,
    (adjustConfidence_monotone_in_quality 90 Lighting.low
      (by norm_num) (by norm_num)).1,
    (adjustConfidence_monotone_in_quality 90 Lighting.low
      (by norm_num) (by norm_num)).2⟩

/-- The mock category pick `types[Math.floor(r * 3)]` hits each of the three
categories exactly on an interval of length 1/3 of the unit draw. -/
theorem mockTypeCases {r : ℚ} (h0 : 0 ≤ r) (h1 : r < 1) :
    (mockTypes.getD (⌊r * (mockTypes.length : ℚ)⌋).toNat WasteType.hazardous
        = WasteType.biodegradable ↔ r < 1/3) ∧
    (mockTypes.getD (⌊r * (mockTypes.length : ℚ)⌋).toNat WasteType.hazardous
        = WasteType.recyclable ↔ 1/3 ≤ r ∧ r < 2/3) ∧
    (mockTypes.getD (⌊r * (mockTypes.length : ℚ)⌋).toNat WasteType.hazardous
        = WasteType.hazardous ↔ 2/3 ≤ r) := by
  have hlen : ((mockTypes.length : ℕ) : ℚ) = 3 := by norm_num [mockTypes]
  rw [hlen]
  rcases lt_or_le r (1/3) with hA | hA
  · have hfl : ⌊r * 3⌋ = (0 : ℤ) :=
      Int.floor_eq_iff.2 (by constructor <;> push_cast <;> nlinarith)
    have hty : mockTypes.getD (⌊r * 3⌋).toNat WasteType.hazardous
        = WasteType.biodegradable := by rw [hfl]; rfl
    rw [hty]
    refine ⟨iff_of_true rfl hA, iff_of_false (by decide) ?_,
      iff_of_false (by decide) ?_⟩
    · rintro ⟨hb, _⟩; linarith
    · intro hb; linarith
  · rcases lt_or_le r (2/3) with hB | hB
    · have hfl : ⌊r * 3⌋ = (1 : ℤ) :=
        Int.floor_eq_iff.2 (by constructor <;> push_cast <;> nlinarith)
      have hty : mockTypes.getD (⌊r * 3⌋).toNat WasteType.hazardous
          = WasteType.recyclable := by rw [hfl]; rfl
      rw [hty]
      refine ⟨iff_of_false (by decide) ?_, iff_of_true rfl ⟨hA, hB⟩,
        iff_of_false (by decide) ?_⟩
      · intro hb; linarith
      · intro hb; linarith
    · have hfl : ⌊r * 3⌋ = (2 : ℤ) :=
        Int.floor_eq_iff.2 (by constructor <;> push_cast <;> nlinarith)
      have hty : mockTypes.getD (⌊r * 3⌋).toNat WasteType.hazardous
          = WasteType.hazardous := by rw [hfl]; rfl
      rw [hty]
      refine ⟨iff_of_false (by decide) ?_, iff_of_false (by decide) ?_,
        iff_of_true rfl hB⟩
      · intro hb; linarith
      · rintro ⟨_, hb⟩; linarith

/-- C4: `classifyWaste` always returns a result — whatever the backend
availability, input shape and backend outcomes, it yields `Except.ok`, and
when the attempted backend throws, the returned result is the mock
classification. -/
theorem classifyWaste_never_throws (env : OrchEnv) :
    (∃ r, classifyWaste env = Except.ok r) ∧
    (∀ e, attemptOf env = Except.error e →
      classifyWaste env = Except.ok (mockResultOf env)) := by
  constructor
  · cases h : attemptOf env with
    | ok r => exact ⟨r, by simp [classifyWaste, h]⟩
    | error e => exact ⟨mockResultOf env, by simp [classifyWaste, h]⟩
  · intro e he
    simp [classifyWaste, he]

/-- C4 witness: with the model ready and inference throwing, `classifyWaste`
still returns, with the mock result. -/
theorem classifyWaste_never_throws_witness :
    attemptOf tfFailureEnv
        = Except.error "Classification failed: Unknown error" ∧
    classifyWaste tfFailureEnv = Except.ok (mockResultOf tfFailureEnv) :=
  ⟨rfl, (classifyWaste_never_throws tfFailureEnv).2 _ rfl⟩

/-- C5: with no model ready and no endpoint configured, `classifyWaste`
returns the simulated result; the simulated classifier waits between 350 and
750 ms, draws the category uniformly (each category on an interval of length
1/3 of the unit draw), and its confidence is an integer in [85,99]. -/
theorem classifyWaste_mock_fallback (env : OrchEnv)
    (hTf : env.tfReady = false) (hApi : env.apiEndpoint = none)
    (hd0 : 0 ≤ env.rDelay) (hd1 : env.rDelay < 1)
    (ht0 : 0 ≤ env.rType) (ht1 : env.rType < 1)
    (hc0 : 0 ≤ env.rConf) (hc1 : env.rConf < 1) :
    classifyWaste env = Except.ok (mockResultOf env) ∧
    (350 ≤ (mockClassification env.rDelay env.rType env.rConf env.rSub
        env.rMat).delayMs ∧
      (mockClassification env.rDelay env.rType env.rConf env.rSub
        env.rMat).delayMs < 750) ∧
    ((mockResultOf env).type = WasteType.biodegradable ↔ env.rType < 1/3) ∧
    ((mockResultOf env).type = WasteType.recyclable ↔
      1/3 ≤ env.rType ∧ env.rType < 2/3) ∧
    ((mockResultOf env).type = WasteType.hazardous ↔ 2/3 ≤ env.rType) ∧
    (∃ n : ℤ, (mockResultOf env).confidence = (n : ℚ) ∧ 85 ≤ n ∧ n ≤ 99) := by
  have hty := mockTypeCases ht0 ht1
  have htyEq : (mockResultOf env).type
      = mockTypes.getD (⌊env.rType * (mockTypes.length : ℚ)⌋).toNat
          WasteType.hazardous := rfl
  have hdelay : (mockClassification env.rDelay env.rType env.rConf env.rSub
      env.rMat).delayMs = 350 + env.rDelay * 400 := rfl
  have hconf : (mockResultOf env).confidence
      = ((85 + ⌊env.rConf * 15⌋ : ℤ) : ℚ) := rfl
  have hf0 : (0 : ℤ) ≤ ⌊env.rConf * 15⌋ :=
    Int.le_floor.2 (by push_cast; nlinarith)
  have hf15 : ⌊env.rConf * 15⌋ < 15 :=
    Int.floor_lt.2 (by push_cast; nlinarith)
  refine ⟨?_, ⟨?_, ?_⟩, ?_, ?_, ?_,
    ⟨85 + ⌊env.rConf * 15⌋, hconf, by omega, by omega⟩⟩
  · simp [classifyWaste, attemptOf, hTf, hApi]
  · rw [hdelay]; nlinarith
  · rw [hdelay]; nlinarith
  · rw [htyEq]; exact hty.1
  · rw [htyEq]; exact hty.2.1
  · rw [htyEq]; exact hty.2.2

/-- C5 witness: at the mid-range fixture the hypotheses hold and the call
returns the mock result. -/
theorem classifyWaste_mock_fallback_witness :
    (mockOnlyEnv.tfReady = false ∧ mockOnlyEnv.apiEndpoint = none ∧
      (0 : ℚ) ≤ mockOnlyEnv.rDelay ∧ mockOnlyEnv.rDelay < 1 ∧
      (0 : ℚ) ≤ mockOnlyEnv.rType ∧ mockOnlyEnv.rType < 1 ∧
      (0 : ℚ) ≤ mockOnlyEnv.rConf ∧ mockOnlyEnv.rConf < 1) ∧
    classifyWaste mockOnlyEnv = Except.ok (mockResultOf mockOnlyEnv) :=
  ⟨⟨rfl, rfl, by norm_num [mockOnlyEnv], by norm_num [mockOnlyEnv],
      by norm_num [mockOnlyEnv], by norm_num [mockOnlyEnv],
      by norm_num [mockOnlyEnv], by norm_num [mockOnlyEnv]⟩,
    (classifyWaste_mock_fallback mockOnlyEnv rfl rfl
      (by norm_num [mockOnlyEnv]) (by norm_num [mockOnlyEnv])
      (by norm_num [mockOnlyEnv]) (by norm_num [mockOnlyEnv])
      (by norm_num [mockOnlyEnv]) (by norm_num [mockOnlyEnv])).1⟩

/-- C6: `loadModel` tries the offline cache, then the configured URL, then
the demo model, stopping at the first success; on a cache hit the outcome
does not depend on the remote fetch or the cache write (the remote fetch is
skipped) and the resulting info is the offline record with
`offlineCapable = true`. -/
theorem loadModel_priority_order :
    (∀ env : LoadEnv, env.cacheLoad = Except.ok () →
      loadModel env =
        { loadingState := .loaded
          modelInfo := some offlineModelInfo
          isOfflineMode := true
          errorMsg := none } ∧
      (∀ u s, loadModel { env with urlLoad := u, cacheSave := s }
          = loadModel env) ∧
      offlineModelInfo.offlineCapable = true) ∧
    (∀ (env : LoadEnv) (e url : String),
      env.cacheLoad = Except.error e → env.tensorflowModelUrl = some url →
      env.urlLoad = Except.ok () →
      (loadModel env).modelInfo = some urlModelInfo ∧
      (loadModel env).loadingState = .loaded) ∧
    (∀ (env : LoadEnv) (e : String),
      env.cacheLoad = Except.error e → env.tensorflowModelUrl = none →
      (loadModel env).modelInfo = some loadDemoModel ∧
      (loadModel env).loadingState = .loaded) := by
  refine ⟨?_, ?_, ?_⟩
  · intro env hc
    exact ⟨by simp [loadModel, loadOfflineModel, hc],
      fun u s => by simp [loadModel, loadOfflineModel, hc], rfl⟩
  · intro env e url hc hu hl
    simp [loadModel, loadOfflineModel, hc, hu, hl]
  · intro env e hc hu
    simp [loadModel, loadOfflineModel, hc, hu]

/-- C6 witness: with a cache hit (and a URL configured whose fetch would
fail), the load uses the cached model and marks offline capability. -/
theorem loadModel_priority_order_witness :
    cachedLoadEnv.cacheLoad = Except.ok () ∧
    loadModel cachedLoadEnv =
      { loadingState := .loaded
        modelInfo := some offlineModelInfo
        isOfflineMode := true
        errorMsg := none } :=
  ⟨rfl, (loadModel_priority_order.1 cachedLoadEnv rfl).1⟩

/-- C7: after a successful remote-URL load, a failing cache write is only
logged — `loadModel` still ends Loaded with no error recorded, keeps the URL
model info, and `cacheModelOffline` turns the failure into a warning instead
of raising. -/
theorem loadModel_cache_write_failure_swallowed
    (env : LoadEnv) (e url m : String)
    (hc : env.cacheLoad = Except.error e)
    (hu : env.tensorflowModelUrl = some url)
    (hl : env.urlLoad = Except.ok ())
    (hs : env.cacheSave = Except.error m) :
    (loadModel env).loadingState = LoadingState.loaded ∧
    (loadModel env).errorMsg = none ∧
    (loadModel env).modelInfo = some urlModelInfo ∧
    (loadModel env).warnLog = some ("Failed to cache model offline: " ++ m) ∧
    cacheModelOffline (Except.error m)
        = some ("Failed to cache model offline: " ++ m) := by
  simp [loadModel, loadOfflineModel, cacheModelOffline, hc, hu, hl, hs]

/-- C7 witness: the fixture whose cache write fails still ends Loaded. -/
theorem loadModel_cache_write_failure_swallowed_witness :
    (remoteLoadEnv.cacheLoad = Except.error "no model in cache" ∧
      remoteLoadEnv.tensorflowModelUrl
          = some "https://models.example.test/model.json" ∧
      remoteLoadEnv.urlLoad = Except.ok () ∧
      remoteLoadEnv.cacheSave = Except.error "quota exceeded") ∧
    (loadModel remoteLoadEnv).loadingState = LoadingState.loaded ∧
    (loadModel remoteLoadEnv).errorMsg = none :=
  ⟨⟨rfl, rfl, rfl, rfl⟩,
    (loadModel_cache_write_failure_swallowed remoteLoadEnv
      "no model in cache" "https://models.example.test/model.json"
      "quota exceeded" rfl rfl rfl rfl).1,
    (loadModel_cache_write_failure_swallowed remoteLoadEnv
      "no model in cache" "https://models.example.test/model.json"
      "quota exceeded" rfl rfl rfl rfl).2.1⟩

/-- C8: the remote API classifier fails with `notConfigured` when no
endpoint is set — independently of any fetch outcome, i.e. without the
network request — fails with `requestFailed` carrying the status text on a
non-ok response, and fails in exactly these cases plus network and parse
failures. -/
theorem classifyImageViaAPI_error_cases :
    (∀ (key : Option String) (f f2 : Except String HttpResponse) (pt : ℚ),
      classifyImageViaAPI none key f pt
          = Except.error ApiError.notConfigured ∧
      classifyImageViaAPI none key f pt = classifyImageViaAPI none key f2 pt) ∧
    (∀ (ep : String) (key : Option String) (resp : HttpResponse) (pt : ℚ),
      resp.ok = false →
      classifyImageViaAPI (some ep) key (Except.ok resp) pt
        = Except.error (ApiError.requestFailed resp.statusText)) ∧
    (∀ st : String,
      (ApiError.requestFailed st).message = "API request failed: " ++ st) ∧
    (∀ (ep key : Option String) (f : Except String HttpResponse) (pt : ℚ),
      (∃ err, classifyImageViaAPI ep key f pt = Except.error err) ↔
        (ep = none ∨ (∃ m, f = Except.error m) ∨
          (∃ resp, f = Except.ok resp ∧
            (resp.ok = false ∨ ∃ m, resp.body = Except.error m)))) := by
  refine ⟨?_, ?_, ?_, ?_⟩
  · intro key f f2 pt
    exact ⟨rfl, rfl⟩
  · intro ep key resp pt hok
    simp [classifyImageViaAPI, hok]
  · intro st
    rfl
  · intro ep key f pt
    cases ep with
    | none => exact iff_of_true ⟨ApiError.notConfigured, rfl⟩ (Or.inl rfl)
    | some ep =>
      cases f with
      | error m =>
        exact iff_of_true ⟨ApiError.network m, rfl⟩
          (Or.inr (Or.inl ⟨m, rfl⟩))
      | ok resp =>
        by_cases hok : resp.ok = false
        · refine iff_of_true ⟨ApiError.requestFailed resp.statusText, ?_⟩
            (Or.inr (Or.inr ⟨resp, rfl, Or.inl hok⟩))
          simp [classifyImageViaAPI, hok]
        · cases hb : resp.body with
          | error m =>
            refine iff_of_true ⟨ApiError.parse m, ?_⟩
              (Or.inr (Or.inr ⟨resp, rfl, Or.inr ⟨m, hb⟩⟩))
            simp [classifyImageViaAPI, hok, hb]
          | ok r =>
            refine iff_of_false ?_ ?_
            · rintro ⟨err, herr⟩
              simp [classifyImageViaAPI, hok, hb] at herr
            · rintro (h | ⟨m, h⟩ | ⟨resp2, h2, hcase⟩)
              · exact Option.noConfusion h
              · exact Except.noConfusion h
              · injection h2 with h3
                subst h3
                rcases hcase with hc | ⟨m, hc⟩
                · exact hok hc
                · rw [hb] at hc
                  exact Except.noConfusion hc

/-- C8 witness: an HTTP 500 response yields `requestFailed` carrying the
status text. -/
theorem classifyImageViaAPI_error_cases_witness :
    http500.ok = false ∧
    classifyImageViaAPI (some "https://api.example.test/classify") none
        (Except.ok http500) 42
      = Except.error (ApiError.requestFailed http500.statusText) :=
  ⟨rfl, classifyImageViaAPI_error_cases.2.1
    "https://api.example.test/classify" none http500 42 rfl⟩

/-- C9: a successful remote response is returned with its recommendations
recomputed locally from the returned category, overriding whatever
recommendation text the remote payload carried. -/
theorem classifyImageViaAPI_recomputes_recommendations
    (ep : String) (key : Option String) (resp : HttpResponse)
    (r : RemoteResponse) (pt : ℚ)
    (hok : resp.ok = true) (hb : resp.body = Except.ok r) :
    classifyImageViaAPI (some ep) key (Except.ok resp) pt
      = Except.ok
          { type := r.type
            confidence := r.confidence
            processingTime := pt
            details :=
              { r.details with
                  recommendations := getRecommendations r.type } } ∧
    (∀ res, classifyImageViaAPI (some ep) key (Except.ok resp) pt
        = Except.ok res →
      res.details.recommendations = getRecommendations r.type) := by
  have hok2 : ¬ (resp.ok = false) := by simp [hok]
  have hmain : classifyImageViaAPI (some ep) key (Except.ok resp) pt
      = Except.ok
          { type := r.type
            confidence := r.confidence
            processingTime := pt
            details :=
              { r.details with
                  recommendations := getRecommendations r.type } } := by
    simp [classifyImageViaAPI, hok2, hb]
  refine ⟨hmain, ?_⟩
  intro res hres
  rw [hmain] at hres
  injection hres with h
  rw [← h]

/-- C9 witness: the fixture payload's own recommendation text is replaced by
the local per-category lookup. -/
theorem classifyImageViaAPI_recomputes_recommendations_witness :
    (httpOk.ok = true ∧ httpOk.body = Except.ok remotePayload) ∧
    classifyImageViaAPI (some "https://api.example.test/classify") none
        (Except.ok httpOk) 42
      = Except.ok
          { type := remotePayload.type
            confidence := remotePayload.confidence
            processingTime := 42
            details :=
              { remotePayload.details with
                  recommendations := getRecommendations remotePayload.type } } :=
  ⟨⟨rfl, rfl⟩, (classifyImageViaAPI_recomputes_recommendations
    "https://api.example.test/classify" none httpOk remotePayload 42
    rfl rfl).1⟩

/-- C10: on a successful remote response the returned confidence is the
remote-supplied value unchanged — no clamp to 99 and no quality adjustment —
and in particular a remote confidence of 100 reaches the caller, outside
[0,99]. -/
theorem classifyImageViaAPI_confidence_passthrough :
    (∀ (ep : String) (key : Option String) (resp : HttpResponse)
        (r : RemoteResponse) (pt : ℚ),
      resp.ok = true → resp.body = Except.ok r →
      ∃ res, classifyImageViaAPI (some ep) key (Except.ok resp) pt
          = Except.ok res ∧ res.confidence = r.confidence) ∧
    (∃ res, classifyImageViaAPI (some "https://api.example.test/classify")
        none (Except.ok httpOk) 42 = Except.ok res ∧
      res.confidence = 100 ∧ ¬ res.confidence ≤ 99) := by
  constructor
  · intro ep key resp r pt hok hb
    have hok2 : ¬ (resp.ok = false) := by simp [hok]
    refine ⟨{ type := r.type
              confidence := r.confidence
              processingTime := pt
              details :=
                { r.details with
                    recommendations := getRecommendations r.type } },
      ?_, rfl⟩
    simp [classifyImageViaAPI, hok2, hb]
  · refine ⟨{ type := remotePayload.type
              confidence := remotePayload.confidence
              processingTime := 42
              details :=
                { remotePayload.details with
                    recommendations :=
                      getRecommendations remotePayload.type } },
      rfl, rfl, by norm_num [remotePayload]⟩

/-- C10 witness: the fixture's remote confidence of 100 is passed through. -/
theorem classifyImageViaAPI_confidence_passthrough_witness :
    (httpOk.ok = true ∧ httpOk.body = Except.ok remotePayload) ∧
    (∃ res, classifyImageViaAPI (some "https://api.example.test/classify")
        none (Except.ok httpOk) 42 = Except.ok res ∧
      res.confidence = remotePayload.confidence) :=
  ⟨⟨rfl, rfl⟩, classifyImageViaAPI_confidence_passthrough.1
    "https://api.example.test/classify" none httpOk remotePayload 42
    rfl rfl⟩

end WasteML
